import Mathlib

/-
  Verification development for the vlight fund-monitor (hanjm/vlight).

  The Go sources (src/main.go and the context-aware variant) are shallowly
  embedded below.  Machine floats (float64 fields of `Fund`) are modelled as
  exact rationals `Rat`: every numeric value the program manipulates is a
  short decimal, and all the properties verified here are pure order
  comparisons, on which decimal floats and rationals agree.  Go strings are
  modelled as Lean `String` except where the byte-level view matters
  (`SendServerChan` title truncation), where they are byte lists.
  Network effects are abstracted by a fetch oracle `String → Except String Fund`;
  the nondeterministic completion order of the fan-out is discussed at each
  definition that depends on it.
-/

namespace Vlight

/-- Fund record, from `type Fund struct` (main.go lines 23-38).
Numeric fields (`dwjz`, `gsz`, `gszzl`) are float64 parsed from JSON strings
in Go; modelled as exact rationals. -/
structure Fund where
  FundCode : String
  Name : String
  JzRq : String
  Dwjz : Rat
  Gsz : Rat
  Gszzl : Rat
  Gztime : String
deriving DecidableEq, Repr

/-- `const concurrency = 3` (main.go line 88). -/
def concurrency : Nat := 3

/-- The comparator passed to `sort.Slice` (main.go lines 128-130):
`funds[i].Gszzl+1 < funds[j].Gszzl+1`. -/
def sortLess (a b : Fund) : Bool :=
  decide (a.Gszzl + 1 < b.Gszzl + 1)

/-- The order established by `sort.Slice` with comparator `sortLess`: an
output is sorted when no later element is `sortLess` than an earlier one. -/
def sortLe (a b : Fund) : Prop :=
  sortLess b a = false

instance : DecidableRel sortLe := fun a b => by
  unfold sortLe
  infer_instance

instance : IsTotal Fund sortLe :=
  ⟨fun a b => by
    simp only [sortLe, sortLess, decide_eq_false_iff_not, not_lt]
    exact le_total (a.Gszzl + 1) (b.Gszzl + 1)⟩

instance : IsTrans Fund sortLe :=
  ⟨fun a b c hab hbc => by
    simp only [sortLe, sortLess, decide_eq_false_iff_not, not_lt] at *
    exact le_trans hab hbc⟩

/-- Model of the `sort.Slice(funds, ...)` call (main.go lines 128-130):
a comparison sort over the collected records using the source comparator.
(`sort.Slice` is an unstable comparison sort; any correct comparison sort
yields the same sortedness and multiset guarantees, which are all the
program's contract relies on.) -/
def sortFunds (l : List Fund) : List Fund :=
  l.insertionSort sortLe

/-- The codes for which an HTTP request is dispatched: the goroutine body
returns before calling `FetchFund` when `code == ""` (main.go lines 103-105),
so exactly the non-empty codes are requested. -/
def dispatchedCodes (codes : List String) : List String :=
  codes.filter (fun c => !(c == ""))

/-- The fund records published to `foundCh` (main.go line 115): one record
per dispatched code whose fetch succeeds.  The list order stands for the
arrival order at the collector; the program's contract (sortedness and
multiset of records) is insensitive to this order. -/
def collectFunds (fetch : String → Except String Fund) (codes : List String) :
    List Fund :=
  (dispatchedCodes codes).filterMap (fun c => (fetch c).toOption)

/-- The errors published (attempted) to `errCh`, each tagged with its code by
`errors.Errorf(err, "code:%s", code)` (main.go line 108), in publication
order. -/
def publishedErrors (fetch : String → Except String Fund) (codes : List String) :
    List String :=
  (dispatchedCodes codes).filterMap (fun c =>
    match fetch c with
    | Except.error e => some ("code:" ++ c ++ ": " ++ e)
    | Except.ok _ => none)

/-- One publication attempt into the 1-buffered `errCh` via
`select { case errCh <- err: default: }` (main.go lines 109-112): the slot
keeps its first value, later sends fall to `default` and are dropped. -/
def errSlotPut (slot : Option String) (e : String) : Option String :=
  match slot with
  | none => some e
  | some prev => some prev

/-- The value finally read from `errCh` by `return funds, <-errCh`
(main.go line 131): the fold of all publication attempts over the single
slot (a receive from the closed empty channel yields `none`/nil). -/
def runErrSlot (errs : List String) : Option String :=
  errs.foldl errSlotPut none

/-- Model of `FetchFunds` (main.go lines 87-132): drain all published
records, sort them with the `sort.Slice` comparator, and return them with
the single captured error. -/
def FetchFunds (fetch : String → Except String Fund) (codes : List String) :
    List Fund × Option String :=
  (sortFunds (collectFunds fetch codes), runErrSlot (publishedErrors fetch codes))

/-- State of the fan-out dispatch loop (main.go lines 94-117): `pending` are
the codes for which the range loop has not yet acquired a slot, `inFlight`
the number of
goroutines currently holding a `limiter` slot.  A slot is acquired by
`limiter <- struct{}{}` before the goroutine starts and released by
`<-limiter` when the goroutine ends, so every running `FetchFund` call
belongs to a slot-holding goroutine and is counted by `inFlight`. -/
structure FanOutState where
  pending : List String
  inFlight : Nat
deriving DecidableEq, Repr

/-- Transitions of the dispatch loop: `acquire` models
`limiter <- struct{}{}` followed by `go func(){...}` — it blocks unless
fewer than `concurrency` slots are held; `finish` models a goroutine's
deferred `<-limiter` release. -/
inductive FanOutStep : FanOutState → FanOutState → Prop
  | acquire (c : String) (cs : List String) (n : Nat) :
      n < concurrency → FanOutStep ⟨c :: cs, n⟩ ⟨cs, n + 1⟩
  | finish (p : List String) (n : Nat) :
      FanOutStep ⟨p, n + 1⟩ ⟨p, n⟩

/-- States reachable by the dispatch loop started on `codes` with no slot
held. -/
inductive FanOutReach (codes : List String) : FanOutState → Prop
  | init : FanOutReach codes ⟨codes, 0⟩
  | step {s t : FanOutState} :
      FanOutReach codes s → FanOutStep s t → FanOutReach codes t

/-- Decimal rendering of a numeric field, abstracting
`strconv.FormatFloat(x, 'f', -1, 64)`.  No verified property inspects the
rendered text, only the surrounding structure. -/
def ratText (q : Rat) : String :=
  toString q.num ++ "/" ++ toString q.den

/-- The `status` classification of `GenerateEmailHTML` (main.go lines
139-147): `if fund.Gszzl > 0 && fund.Gszzl >= minRiseNum { status = "涨" }
else if fund.Gszzl < 0 && fund.Gszzl <= maxFallNum { status = "跌" }
else { status = "-" }`. -/
def fundStatusEmail (gszzl minRiseNum maxFallNum : Rat) : String :=
  if gszzl > 0 ∧ gszzl ≥ minRiseNum then "涨"
  else if gszzl < 0 ∧ gszzl ≤ maxFallNum then "跌"
  else "-"

/-- The `status` classification of `GenerateServerChanMessage`
(part_000 lines 226-234), transcribed separately from its own source text:
`if fund.Gszzl > 0 && fund.Gszzl >= minRiseNum { status = "涨" }
else if fund.Gszzl < 0 && fund.Gszzl <= maxFallNum { status = "跌" }
else { status = "-" }`. -/
def fundStatusServerChan (gszzl minRiseNum maxFallNum : Rat) : String :=
  if gszzl > 0 ∧ gszzl ≥ minRiseNum then "涨"
  else if gszzl < 0 ∧ gszzl ≤ maxFallNum then "跌"
  else "-"

/-- One `<tr>` element of the email table (main.go lines 148-157). -/
def emailElement (minRiseNum maxFallNum : Rat) (fund : Fund) : String :=
  "\n            <tr>\n              <td width=\"50\" align=\"center\">"
    ++ fundStatusEmail fund.Gszzl minRiseNum maxFallNum
    ++ "</td>\n              <td width=\"50\" align=\"center\">" ++ fund.Name
    ++ "</td>\n              <td width=\"50\" align=\"center\">" ++ ratText fund.Gszzl
    ++ "%</td>\n              <td width=\"50\" align=\"center\">" ++ ratText fund.Gsz
    ++ "</td>\n              <td width=\"50\" align=\"center\">" ++ ratText fund.Dwjz
    ++ "</td>\n              <td width=\"50\" align=\"center\">" ++ fund.Gztime
    ++ "</td>\n            </tr>\n\t\t\t"

/-- The fixed part of the email HTML before the joined elements
(main.go lines 162-179). -/
def emailHtmlHead : String :=
  "\n\t\t\t</html>\n\t\t\t\t<head>\n\t\t\t\t\t<meta http-equiv=\"Content-Type\" content=\"text/html; charset=utf-8\" />\n\t\t\t\t</head>\n            <body>\n\t\t\t\t<div id=\"container\">\n\t\t\t\t\t<p>基金涨跌监控:</p>\n\t\t\t\t\t<div id=\"content\">\n\t\t\t\t\t\t<table width=\"30%\" border=\"1\" cellspacing=\"0\" cellpadding=\"0\">\n\t\t\t\t\t\t\t<tr>\n\t\t\t\t\t\t\t  <td width=\"50\" align=\"center\">状态</td>\n\t\t\t\t\t\t\t  <td width=\"100\" align=\"center\">基金名称</td>\n\t\t\t\t\t\t\t  <td width=\"50\" align=\"center\">估算涨幅</td>\n\t\t\t\t\t\t\t  <td width=\"50\" align=\"center\">当前估算净值</td>\n\t\t\t\t\t\t\t  <td width=\"50\" align=\"center\">昨日单位净值</td>\n\t\t\t\t\t\t\t  <td width=\"50\" align=\"center\">估算时间</td>\n\t\t\t\t\t\t\t</tr>"

/-- The fixed part of the email HTML after the joined elements
(main.go lines 180-185). -/
def emailHtmlTail : String :=
  "\n\t\t\t\t\t\t</table>\n\t\t\t\t\t</div>\n            \t</div>\n            </div>\n            </body>\n        </html>"

/-- Model of `GenerateEmailHTML` (main.go lines 135-191): one table row per
input record (appended unconditionally, whatever its classification); when
at least one row exists the rows are joined with newlines into the HTML
template and `shouldSend` is true, otherwise `("", false)`. -/
def GenerateEmailHTML (funds : List Fund) (minRiseNum maxFallNum : Rat) :
    String × Bool :=
  let elements := funds.map (emailElement minRiseNum maxFallNum)
  if 0 < elements.length then
    (emailHtmlHead ++ String.intercalate "\n" elements ++ emailHtmlTail, true)
  else
    ("", false)

/-- One markdown table row of the webhook digest (part_000 lines 235-241). -/
def serverChanElement (minRiseNum maxFallNum : Rat) (fund : Fund) : String :=
  "|" ++ fundStatusServerChan fund.Gszzl minRiseNum maxFallNum
    ++ "|" ++ fund.Name
    ++ "|" ++ ratText fund.Gszzl
    ++ "|" ++ ratText fund.Gsz
    ++ "|" ++ ratText fund.Dwjz
    ++ "|" ++ fund.Gztime
    ++ "|"

/-- Model of `GenerateServerChanMessage` (part_000 lines 220-255).  `today`
stands for `time.Now().In(timeLocationCST).Format("2006-01-02")`.
`fallCount` counts the records taking the `"跌"` branch.  Returns
(title, body, shouldSend). -/
def GenerateServerChanMessage (today : String) (funds : List Fund)
    (minRiseNum maxFallNum : Rat) : String × String × Bool :=
  let elements := funds.map (serverChanElement minRiseNum maxFallNum)
  let fallCount :=
    (funds.filter
      (fun f => fundStatusServerChan f.Gszzl minRiseNum maxFallNum == "跌")).length
  if 0 < elements.length then
    ("基金涨跌监控_" ++ today ++ "_" ++ toString fallCount ++ "跌",
     "\n|状态|基金名称|估算涨幅|当前估算净值|昨日单位净值|估算时间|\n| -- | -- | -- | -- | -- | -- |\n"
       ++ String.intercalate "\n" elements,
     true)
  else
    ("", "", false)

/-- Whether a byte is a UTF-8 continuation byte (10xxxxxx).  Counting the
non-continuation bytes of a valid UTF-8 byte string counts its characters. -/
def utf8Continuation (b : Nat) : Bool :=
  decide (128 ≤ b ∧ b < 192)

/-- Character count of a UTF-8 byte string: its non-continuation bytes. -/
def utf8CharLen (t : List Nat) : Nat :=
  (t.filter (fun b => !(utf8Continuation b))).length

/-- Pre-transmission processing of `SendServerChan` (part_000 lines
257-268) on the title, at the byte level of Go strings: reject an empty
title or key, then `if len(title) > 256 { title = title[:256] }` — Go's
`len` and slicing act on bytes.  Returns the byte string transmitted as the
`text` form field, or `none` when the send is rejected before transmission. -/
def sendServerChanTitle (title serverChanKey : List Nat) : Option (List Nat) :=
  if title = [] then none
  else if serverChanKey = [] then none
  else some (if 256 < title.length then title.take 256 else title)

/-- Opening brace character of a JSON object. -/
def braceOpen : Char := Char.ofNat 123

/-- Closing brace character of a JSON object. -/
def braceClose : Char := Char.ofNat 125

/-- `bodyPrefix = []byte("jsonpgz(")` (main.go line 46). -/
def jsonpOpen : List Char := "jsonpgz(".data

/-- `bodySuffix = []byte(");")` (main.go line 47). -/
def jsonpClose : List Char := ");".data

/-- `bytes.TrimPrefix(body, pre)`: drop `pre` from the front if it is a
prefix, otherwise return the input unchanged. -/
def trimHead (pre s : List Char) : List Char :=
  if pre.isPrefixOf s then s.drop pre.length else s

/-- `bytes.TrimSuffix(body, suf)`: drop `suf` from the end if it is a
suffix, otherwise return the input unchanged. -/
def trimTail (suf s : List Char) : List Char :=
  if suf.isSuffixOf s then s.take (s.length - suf.length) else s

/-- Scan the body of a JSON string after its opening quote, up to the
closing quote; returns the content and the remainder after the quote.
(The upstream payload uses no escape sequences.) -/
def takeStringBody : List Char → Option (List Char × List Char)
  | [] => none
  | c :: cs =>
    if c = '"' then some ([], cs)
    else
      match takeStringBody cs with
      | some (s, r) => some (c :: s, r)
      | none => none

/-- Parse the comma-separated members of a flat JSON object whose values
are all strings — the shape of the upstream payload
(`"key":"value",...`).  `fuel` bounds the recursion by the input length. -/
def parseMembers : Nat → List Char → Option (List (String × String) × List Char)
  | 0, _ => none
  | _ + 1, [] => none
  | fuel + 1, c :: cs =>
    if c = '"' then
      match takeStringBody cs with
      | none => none
      | some (key, rest1) =>
        match rest1 with
        | ':' :: '"' :: rest2 =>
          match takeStringBody rest2 with
          | none => none
          | some (value, rest3) =>
            match rest3 with
            | ',' :: rest4 =>
              match parseMembers fuel rest4 with
              | some (ms, rest5) =>
                some ((String.mk key, String.mk value) :: ms, rest5)
              | none => none
            | _ => some ([(String.mk key, String.mk value)], rest3)
        | _ => none
    else none

/-- Parse a whole flat JSON object `\x7b"k":"v",...\x7d` into its member
list; fails on trailing input. -/
def parseFlatObject (s : List Char) : Option (List (String × String)) :=
  match s with
  | [] => none
  | c :: rest =>
    if c = braceOpen then
      match parseMembers rest.length rest with
      | some (ms, d :: tail2) =>
        if d = braceClose ∧ tail2 = [] then some ms else none
      | _ => none
    else none

/-- Numeric value of a decimal digit character. -/
def digitVal (c : Char) : Nat := c.toNat - 48

/-- Value of a list of decimal digit characters. -/
def digitsToNat (ds : List Char) : Nat :=
  ds.foldl (fun acc c => acc * 10 + digitVal c) 0

/-- Parse a plain decimal literal (optional sign, digits, optional
fractional part) into an exact rational — the values taken by the
string-typed numeric JSON fields (`dwjz`, `gsz`, `gszzl`). -/
def parseDecimal (s : List Char) : Option Rat :=
  let signSplit : Bool × List Char :=
    match s with
    | c :: t => if c = '-' then (true, t) else (false, s)
    | [] => (false, s)
  let neg := signSplit.1
  let s1 := signSplit.2
  let intDigits := s1.takeWhile Char.isDigit
  let rest := s1.dropWhile Char.isDigit
  if intDigits = [] then none
  else
    let ip : Rat := (digitsToNat intDigits : Nat)
    let val? : Option Rat :=
      match rest with
      | [] => some ip
      | c :: fs =>
        if c = '.' ∧ fs ≠ [] ∧ fs.all Char.isDigit then
          some (ip + (digitsToNat fs : Rat) / ((10 : Rat) ^ fs.length))
        else none
    match val? with
    | some v => some (if neg then -v else v)
    | none => none

/-- `json.Unmarshal` of the member list into a `Fund` (struct tags at
main.go lines 23-38): plain string fields are taken verbatim, the
`,string`-tagged numeric fields are parsed as decimals; a member missing
from the payload leaves the Go zero value; an unparseable numeric string
is an unmarshal error. -/
def unmarshalFund (ms : List (String × String)) : Option Fund :=
  let str : String → String := fun k => (ms.lookup k).getD ""
  let num : String → Option Rat := fun k =>
    match ms.lookup k with
    | none => some 0
    | some s => parseDecimal s.data
  match num "dwjz", num "gsz", num "gszzl" with
  | some dwjz, some gsz, some gszzl =>
    some { FundCode := str "fundcode", Name := str "name", JzRq := str "jzrq",
           Dwjz := dwjz, Gsz := gsz, Gszzl := gszzl, Gztime := str "gztime" }
  | _, _, _ => none

/-- The strip-and-parse step of `FetchFund` (main.go lines 74-81):
`bytes.TrimPrefix`, `bytes.TrimSuffix`, then `json.Unmarshal` into a
`Fund`. -/
def parseFundBody (body : List Char) : Option Fund :=
  match parseFlatObject (trimTail jsonpClose (trimHead jsonpOpen body)) with
  | some ms => unmarshalFund ms
  | none => none

/-- The member list that JSON-parsing the canned upstream body produces. -/
def msCanned : List (String × String) :=
  [("fundcode", "180012"), ("name", "X"), ("jzrq", "2019-10-31"),
   ("dwjz", "3.6009"), ("gsz", "3.6490"), ("gszzl", "1.34"),
   ("gztime", "2019-11-01 15:00")]

/-- The canned upstream body
`jsonpgz(\x7b"fundcode":"180012","name":"X","jzrq":"2019-10-31","dwjz":"3.6009","gsz":"3.6490","gszzl":"1.34","gztime":"2019-11-01 15:00"\x7d);`
from the spec's round-trip property. -/
def cannedBody : List Char :=
  "jsonpgz(".data ++ [braceOpen]
    ++ ("\"fundcode\":\"180012\",\"name\":\"X\",\"jzrq\":\"2019-10-31\","
        ++ "\"dwjz\":\"3.6009\",\"gsz\":\"3.6490\",\"gszzl\":\"1.34\","
        ++ "\"gztime\":\"2019-11-01 15:00\"").data
    ++ [braceClose] ++ ");".data

/-- A concrete fund record used to evaluate the classification at a
boundary input. -/
def cexFund : Fund :=
  { FundCode := "000000", Name := "F", JzRq := "2020-01-01",
    Dwjz := 1, Gsz := 1, Gszzl := 0, Gztime := "t" }

/-- A fetch oracle on which every request fails. -/
def failFetch : String → Except String Fund :=
  fun _ => Except.error "boom"

/-- A 258-byte title encoding 129 two-byte UTF-8 characters (é = C3 A9). -/
def cexTitle : List Nat :=
  (List.replicate 129 [195, 169]).flatten

/- ------------------------------------------------------------------ -/
/- Theorems                                                            -/
/- ------------------------------------------------------------------ -/

theorem sortLe_iff (a b : Fund) : sortLe a b ↔ a.Gszzl ≤ b.Gszzl := by
  simp [sortLe, sortLess, not_lt]

theorem foldl_errSlotPut_some (l : List String) (x : String) :
    l.foldl errSlotPut (some x) = some x := by
  induction l with
  | nil => rfl
  | cons e t ih => simpa [errSlotPut] using ih

/-- The single-slot error holder keeps exactly the first published error. -/
theorem runErrSlot_eq_head (errs : List String) :
    runErrSlot errs = errs.head? := by
  cases errs with
  | nil => rfl
  | cons e t =>
    show (e :: t).foldl errSlotPut none = some e
    rw [List.foldl_cons]
    exact foldl_errSlotPut_some t e

/-- C1: for every input identifier list (and every fetch outcome and
completion order, since sortedness holds for any collected list), the
record sequence returned by `FetchFunds` is sorted ascending by `Gszzl`:
every adjacent pair `(a, b)` satisfies `a.Gszzl ≤ b.Gszzl`. -/
theorem fetchFunds_sorted (fetch : String → Except String Fund)
    (codes : List String) :
    List.Chain' (fun a b => a.Gszzl ≤ b.Gszzl) (FetchFunds fetch codes).1 := by
  have hs : List.Sorted sortLe (sortFunds (collectFunds fetch codes)) :=
    List.sorted_insertionSort sortLe (collectFunds fetch codes)
  have hp : List.Pairwise (fun a b => a.Gszzl ≤ b.Gszzl)
      (sortFunds (collectFunds fetch codes)) :=
    hs.imp (fun h => (sortLe_iff _ _).mp h)
  exact hp.chain'

/-- C2: in every state the fan-out dispatch loop can reach, at most
`concurrency = 3` tasks hold a limiter slot; since a `FetchFund` call runs
only inside a slot-holding task, never more than 3 fetches are in flight. -/
theorem fanOut_inFlight_le_concurrency (codes : List String)
    (s : FanOutState) (h : FanOutReach codes s) :
    s.inFlight ≤ concurrency := by
  induction h with
  | init => exact Nat.zero_le _
  | step hr hstep ih =>
    cases hstep with
    | acquire c cs n hn => exact hn
    | finish p n => exact Nat.le_of_succ_le ih

theorem fanOut_inFlight_le_concurrency_witness :
    (FanOutState.mk [] 1).inFlight ≤ concurrency :=
  fanOut_inFlight_le_concurrency ["180012"] ⟨[], 1⟩
    (FanOutReach.step FanOutReach.init
      (FanOutStep.acquire "180012" [] 0 (by decide)))

/-- C3: `FetchFunds` returns exactly the first error published to the
single-slot holder (`errCh` of capacity 1 written through a
`select`/`default`), and every later published error is dropped: the
returned error is the head of the publication sequence, whatever its
length. -/
theorem fetchFunds_first_error_wins (fetch : String → Except String Fund)
    (codes : List String) :
    (FetchFunds fetch codes).2 = (publishedErrors fetch codes).head? :=
  runErrSlot_eq_head (publishedErrors fetch codes)

/-- C4: the record sequence returned by `FetchFunds` is exactly the
successfully fetched records (as a multiset); when no identifier succeeds
and at least one fails it is empty and the returned error is non-nil; and
the returned error is always the first captured one. -/
theorem fetchFunds_partial_results (fetch : String → Except String Fund)
    (codes : List String) :
    List.Perm (FetchFunds fetch codes).1 (collectFunds fetch codes)
    ∧ (collectFunds fetch codes = [] → publishedErrors fetch codes ≠ [] →
        (FetchFunds fetch codes).1 = [] ∧ (FetchFunds fetch codes).2 ≠ none)
    ∧ (FetchFunds fetch codes).2 = (publishedErrors fetch codes).head? := by
  refine ⟨List.perm_insertionSort sortLe _, ?_, runErrSlot_eq_head _⟩
  intro hc he
  constructor
  · show sortFunds (collectFunds fetch codes) = []
    rw [hc]
    rfl
  · show runErrSlot (publishedErrors fetch codes) ≠ none
    rw [runErrSlot_eq_head]
    cases hpe : publishedErrors fetch codes with
    | nil => exact absurd hpe he
    | cons e t => simp

theorem fetchFunds_partial_results_witness :
    (FetchFunds failFetch ["180012"]).1 = []
    ∧ (FetchFunds failFetch ["180012"]).2 ≠ none :=
  (fetchFunds_partial_results failFetch ["180012"]).2.1 (by decide) (by decide)

/-- C5 counterexample: at growth 0 with minimum-rise threshold 0 (and
maximum-fall -1), the claim's rule "rise exactly when growth ≥ min-rise"
fails: growth ≥ min-rise holds but the code classifies "-" (neutral),
because the code additionally requires growth > 0. -/
theorem fundStatus_threshold_counterexample :
    ¬ ((fundStatusEmail cexFund.Gszzl 0 (-1) = "涨") ↔ (0 : Rat) ≤ cexFund.Gszzl) := by
  decide

/-- C5 amended: when the minimum-rise threshold is positive and the
maximum-fall threshold negative (as in the deployed configuration
`minRiseNum = 1, maxFallNum = -0.8`), the classification is "rise" exactly
when growth ≥ min-rise, "fall" exactly when growth ≤ max-fall, and "-"
(neutral) otherwise. -/
theorem fundStatus_threshold_classification (g minRise maxFall : Rat)
    (hrise : 0 < minRise) (hfall : maxFall < 0) :
    fundStatusEmail g minRise maxFall =
      if minRise ≤ g then "涨" else if g ≤ maxFall then "跌" else "-" := by
  unfold fundStatusEmail
  rcases le_or_lt minRise g with hmg | hmg
  · have hg0 : 0 < g := lt_of_lt_of_le hrise hmg
    rw [if_pos ⟨hg0, hmg⟩, if_pos hmg]
  · rcases le_or_lt g maxFall with hgf | hgf
    · have hg0 : g < 0 := lt_of_le_of_lt hgf hfall
      have h1 : ¬ (g > 0 ∧ g ≥ minRise) := fun h => absurd h.2 (not_le.mpr hmg)
      rw [if_neg h1, if_pos ⟨hg0, hgf⟩, if_neg (not_le.mpr hmg), if_pos hgf]
    · have h1 : ¬ (g > 0 ∧ g ≥ minRise) := fun h => absurd h.2 (not_le.mpr hmg)
      have h2 : ¬ (g < 0 ∧ g ≤ maxFall) := fun h => absurd h.2 (not_le.mpr hgf)
      rw [if_neg h1, if_neg h2, if_neg (not_le.mpr hmg), if_neg (not_le.mpr hgf)]

theorem fundStatus_threshold_classification_witness :
    fundStatusEmail (67 / 50) 1 (-4 / 5) =
      if (1 : Rat) ≤ 67 / 50 then "涨"
      else if (67 / 50 : Rat) ≤ -4 / 5 then "跌" else "-" :=
  fundStatus_threshold_classification (67 / 50) 1 (-4 / 5) (by norm_num)
    (by norm_num)

/-- C6: an empty-string identifier is a no-op: it is excluded from the
dispatched request list, and deleting it from the input changes neither the
returned records nor the returned error. -/
theorem emptyCode_noop (fetch : String → Except String Fund)
    (codes1 codes2 : List String) :
    dispatchedCodes (codes1 ++ "" :: codes2) = dispatchedCodes (codes1 ++ codes2)
    ∧ FetchFunds fetch (codes1 ++ "" :: codes2) = FetchFunds fetch (codes1 ++ codes2) := by
  have hd : dispatchedCodes (codes1 ++ "" :: codes2)
      = dispatchedCodes (codes1 ++ codes2) := by
    simp [dispatchedCodes, List.filter_append]
  refine ⟨hd, ?_⟩
  unfold FetchFunds collectFunds publishedErrors
  rw [hd]

set_option maxRecDepth 40000 in
/-- C7: the strip-and-parse step of the Single-Fetch Operation, applied to
the canned upstream body, yields the fund record with FundCode "180012",
Dwjz 3.6009, Gsz 3.6490, Gszzl 1.34. -/
theorem parseFundBody_canned :
    parseFundBody cannedBody =
      some { FundCode := "180012", Name := "X", JzRq := "2019-10-31",
             Dwjz := 36009 / 10000, Gsz := 3649 / 1000, Gszzl := 67 / 50,
             Gztime := "2019-11-01 15:00" } := by
  have hobj : parseFlatObject (trimTail jsonpClose (trimHead jsonpOpen cannedBody))
      = some msCanned := by decide
  have hbody : parseFundBody cannedBody = unmarshalFund msCanned := by
    unfold parseFundBody
    rw [hobj]
  have hd : parseDecimal "3.6009".data
      = some (36009 / 10000 : Rat) := by
    have h : parseDecimal "3.6009".data
        = some (((digitsToNat ['3'] : Nat) : Rat)
            + ((digitsToNat ['6', '0', '0', '9'] : Nat) : Rat) / (10 : Rat) ^ (4 : Nat)) := rfl
    rw [h, show digitsToNat ['3'] = 3 from rfl,
        show digitsToNat ['6', '0', '0', '9'] = 6009 from rfl]
    norm_num
  have hg : parseDecimal "3.6490".data
      = some (3649 / 1000 : Rat) := by
    have h : parseDecimal "3.6490".data
        = some (((digitsToNat ['3'] : Nat) : Rat)
            + ((digitsToNat ['6', '4', '9', '0'] : Nat) : Rat) / (10 : Rat) ^ (4 : Nat)) := rfl
    rw [h, show digitsToNat ['3'] = 3 from rfl,
        show digitsToNat ['6', '4', '9', '0'] = 6490 from rfl]
    norm_num
  have hz : parseDecimal "1.34".data
      = some (67 / 50 : Rat) := by
    have h : parseDecimal "1.34".data
        = some (((digitsToNat ['1'] : Nat) : Rat)
            + ((digitsToNat ['3', '4'] : Nat) : Rat) / (10 : Rat) ^ (2 : Nat)) := rfl
    rw [h, show digitsToNat ['1'] = 1 from rfl,
        show digitsToNat ['3', '4'] = 34 from rfl]
    norm_num
  have hm : unmarshalFund msCanned
      = (match parseDecimal "3.6009".data, parseDecimal "3.6490".data,
            parseDecimal "1.34".data with
         | some dwjz, some gsz, some gszzl =>
           some { FundCode := "180012", Name := "X", JzRq := "2019-10-31",
                  Dwjz := dwjz, Gsz := gsz, Gszzl := gszzl,
                  Gztime := "2019-11-01 15:00" }
         | _, _, _ => none) := rfl
  rw [hbody, hm, hd, hg, hz]

set_option maxRecDepth 40000 in
/-- C8 counterexample: `cexTitle` is 129 characters (258 bytes) long, so by
the claim ("titles of 256 characters or fewer are transmitted unchanged")
it should pass through untouched, but `SendServerChan` truncates at 256
*bytes* (Go `len`/slicing) and transmits a different title. -/
theorem sendServerChanTitle_byte_counterexample :
    utf8CharLen cexTitle ≤ 256
    ∧ sendServerChanTitle cexTitle [107] ≠ some cexTitle := by
  decide

/-- C8 amended: the title is truncated at the byte level: a title longer
than 256 bytes is cut to exactly its first 256 bytes before transmission
(possibly splitting a multi-byte character), and a title of at most 256
bytes is transmitted unchanged. -/
theorem sendServerChanTitle_truncates_bytes (title key : List Nat)
    (ht : title ≠ []) (hk : key ≠ []) :
    (256 < title.length →
      sendServerChanTitle title key = some (title.take 256)
      ∧ (title.take 256).length = 256)
    ∧ (title.length ≤ 256 → sendServerChanTitle title key = some title) := by
  unfold sendServerChanTitle
  rw [if_neg ht, if_neg hk]
  constructor
  · intro h
    rw [if_pos h]
    exact ⟨rfl, by rw [List.length_take]; omega⟩
  · intro h
    rw [if_neg (by omega)]

set_option maxRecDepth 40000 in
theorem sendServerChanTitle_truncates_bytes_witness :
    sendServerChanTitle (List.replicate 300 65) [107]
      = some ((List.replicate 300 65).take 256)
    ∧ ((List.replicate 300 65).take 256).length = 256 :=
  (sendServerChanTitle_truncates_bytes (List.replicate 300 65) [107]
    (by decide) (by decide)).1 (by decide)

/-- C9: both formatters' "should send" flag is false exactly on the empty
record sequence and true on any non-empty one, whatever the thresholds and
classification mix. -/
theorem generate_shouldSend_iff (today : String) (funds : List Fund)
    (minRiseNum maxFallNum : Rat) :
    ((GenerateEmailHTML funds minRiseNum maxFallNum).2 = true ↔ funds ≠ [])
    ∧ ((GenerateServerChanMessage today funds minRiseNum maxFallNum).2.2 = true
        ↔ funds ≠ []) := by
  cases funds with
  | nil => simp [GenerateEmailHTML, GenerateServerChanMessage]
  | cons f t => simp [GenerateEmailHTML, GenerateServerChanMessage]

/-- C10: the email formatter and the webhook formatter classify every
record identically: their classification functions are equal. -/
theorem fundStatus_email_eq_serverChan :
    fundStatusEmail = fundStatusServerChan :=
  rfl

end Vlight
